import Mathlib

/-!
Shallow embedding of the `fast-sobel-tfjs` Sobel edge-detection engine
(`src/kernels.ts`, `src/processors.ts`, `src/utils/tensor-utils.ts`,
`src/sobel.ts`) and proofs about the specification claims.

Tensors are modelled as shape-annotated index functions over a linearly
ordered field (`ℚ` for exact evaluation of the normalization utilities,
`ℝ` for the convolution / magnitude / direction pipeline, where the
TypeScript code computes with float32).  Machine floats are idealized as
exact field arithmetic; the float-specific constant `1e-6` from the code
is kept exactly as `1/1000000`.
-/

/-- A rank-3 tensor `[height, width, channels]` as in tf.js `Tensor3D`.
`data` is a total index function; only indices below the bounds are
meaningful. -/
structure Tensor3 (α : Type) where
  height : Nat
  width : Nat
  channels : Nat
  data : Nat → Nat → Nat → α

/-- A rank-4 tensor `[batch, height, width, channels]` as in tf.js
`Tensor4D`. -/
structure Tensor4 (α : Type) where
  batch : Nat
  height : Nat
  width : Nat
  channels : Nat
  data : Nat → Nat → Nat → Nat → α

/-- The list of in-bounds index triples of a rank-3 tensor. -/
def Tensor3.idx {α : Type} (t : Tensor3 α) : List (Nat × Nat × Nat) :=
  (List.range t.height).flatMap fun i =>
    (List.range t.width).flatMap fun j =>
      (List.range t.channels).map fun k => (i, j, k)

/-- All in-bounds elements of a rank-3 tensor (row-major). -/
def Tensor3.elems {α : Type} (t : Tensor3 α) : List α :=
  t.idx.map fun p => t.data p.1 p.2.1 p.2.2

/-- The list of in-bounds index quadruples of a rank-4 tensor. -/
def Tensor4.idx {α : Type} (t : Tensor4 α) : List (Nat × Nat × Nat × Nat) :=
  (List.range t.batch).flatMap fun b =>
    (List.range t.height).flatMap fun i =>
      (List.range t.width).flatMap fun j =>
        (List.range t.channels).map fun k => (b, i, j, k)

/-- All in-bounds elements of a rank-4 tensor. -/
def Tensor4.elems {α : Type} (t : Tensor4 α) : List α :=
  t.idx.map fun p => t.data p.1 p.2.1 p.2.2.1 p.2.2.2

/-- Minimum of a list (0 on the empty list), modelling `tensor.min()`. -/
def listMin {α : Type} [LinearOrder α] [Zero α] : List α → α
  | [] => 0
  | x :: xs => xs.foldl min x

/-- Maximum of a list (0 on the empty list), modelling `tensor.max()`. -/
def listMax {α : Type} [LinearOrder α] [Zero α] : List α → α
  | [] => 0
  | x :: xs => xs.foldl max x

/-- `tensor.min()` over a rank-3 tensor. -/
def Tensor3.minVal {α : Type} [LinearOrder α] [Zero α] (t : Tensor3 α) : α :=
  listMin t.elems

/-- `tensor.max()` over a rank-3 tensor. -/
def Tensor3.maxVal {α : Type} [LinearOrder α] [Zero α] (t : Tensor3 α) : α :=
  listMax t.elems

/-- `tf.min` over a rank-4 tensor. -/
def Tensor4.minVal {α : Type} [LinearOrder α] [Zero α] (t : Tensor4 α) : α :=
  listMin t.elems

/-- `tf.max` over a rank-4 tensor. -/
def Tensor4.maxVal {α : Type} [LinearOrder α] [Zero α] (t : Tensor4 α) : α :=
  listMax t.elems

/-- Elementwise map over a rank-3 tensor (shape unchanged). -/
def Tensor3.mapElems {α : Type} (f : α → α) (t : Tensor3 α) : Tensor3 α where
  height := t.height
  width := t.width
  channels := t.channels
  data := fun i j k => f (t.data i j k)

/-- Elementwise map over a rank-4 tensor (shape unchanged). -/
def Tensor4.mapElems {α : Type} (f : α → α) (t : Tensor4 α) : Tensor4 α where
  batch := t.batch
  height := t.height
  width := t.width
  channels := t.channels
  data := fun b i j k => f (t.data b i j k)

/-- Extensional equality of rank-3 tensors: identical shape and identical
data at every in-bounds index. -/
def Tensor3.Eq3 {α : Type} (a b : Tensor3 α) : Prop :=
  a.height = b.height ∧ a.width = b.width ∧ a.channels = b.channels ∧
    ∀ i < a.height, ∀ j < a.width, ∀ k < a.channels,
      a.data i j k = b.data i j k

instance {α : Type} [DecidableEq α] (a b : Tensor3 α) :
    Decidable (Tensor3.Eq3 a b) := by
  unfold Tensor3.Eq3
  infer_instance

/-- `normalizeTensor` from `src/utils/tensor-utils.ts`: min-max rescale of a
tensor into `[min, max]`, with the denominator clamped below by `1e-6`
(`tf.maximum(maxVal - minVal, 1e-6)`) to avoid division by zero. -/
def normalizeTensor {α : Type} [LinearOrderedField α]
    (t : Tensor3 α) (mn mx : α) : Tensor3 α :=
  Tensor3.mapElems
    (fun v =>
      (v - t.minVal) / max (t.maxVal - t.minVal) (1 / 1000000) * (mx - mn) + mn)
    t

section ListMinMaxLemmas

variable {α : Type} [LinearOrder α]

theorem foldl_min_le_start (a : α) (l : List α) : l.foldl min a ≤ a := by
  induction l generalizing a with
  | nil => exact le_refl a
  | cons x xs ih => exact le_trans (ih (min a x)) (min_le_left a x)

theorem foldl_min_le_mem {x : α} {l : List α} (a : α) (hx : x ∈ l) :
    l.foldl min a ≤ x := by
  induction l generalizing a with
  | nil => cases hx
  | cons y ys ih =>
    rcases List.mem_cons.mp hx with h | h
    · subst h
      exact le_trans (foldl_min_le_start (min a x) ys) (min_le_right a x)
    · exact ih (min a y) h

theorem le_foldl_max_start (a : α) (l : List α) : a ≤ l.foldl max a := by
  induction l generalizing a with
  | nil => exact le_refl a
  | cons x xs ih => exact le_trans (le_max_left a x) (ih (max a x))

theorem le_foldl_max_mem {x : α} {l : List α} (a : α) (hx : x ∈ l) :
    x ≤ l.foldl max a := by
  induction l generalizing a with
  | nil => cases hx
  | cons y ys ih =>
    rcases List.mem_cons.mp hx with h | h
    · subst h
      exact le_trans (le_max_right a x) (le_foldl_max_start (max a x) ys)
    · exact ih (max a y) h

theorem listMin_le_mem [Zero α] {x : α} {l : List α} (hx : x ∈ l) : listMin l ≤ x := by
  cases l with
  | nil => cases hx
  | cons y ys =>
    rcases List.mem_cons.mp hx with h | h
    · subst h
      exact foldl_min_le_start x ys
    · exact foldl_min_le_mem y h

theorem le_listMax_mem [Zero α] {x : α} {l : List α} (hx : x ∈ l) : x ≤ listMax l := by
  cases l with
  | nil => cases hx
  | cons y ys =>
    rcases List.mem_cons.mp hx with h | h
    · subst h
      exact le_foldl_max_start x ys
    · exact le_foldl_max_mem y h

theorem foldl_min_map_mono {β : Type} [LinearOrder β] {f : α → β}
    (hf : Monotone f) (a : α) (l : List α) :
    (l.map f).foldl min (f a) = f (l.foldl min a) := by
  induction l generalizing a with
  | nil => rfl
  | cons x xs ih =>
    simp only [List.map_cons, List.foldl_cons, ← hf.map_min]
    exact ih (min a x)

theorem foldl_max_map_mono {β : Type} [LinearOrder β] {f : α → β}
    (hf : Monotone f) (a : α) (l : List α) :
    (l.map f).foldl max (f a) = f (l.foldl max a) := by
  induction l generalizing a with
  | nil => rfl
  | cons x xs ih =>
    simp only [List.map_cons, List.foldl_cons, ← hf.map_max]
    exact ih (max a x)

theorem listMin_map_mono [Zero α] {β : Type} [LinearOrder β] [Zero β] {f : α → β}
    (hf : Monotone f) {l : List α} (hl : l ≠ []) :
    listMin (l.map f) = f (listMin l) := by
  cases l with
  | nil => exact absurd rfl hl
  | cons x xs => exact foldl_min_map_mono hf x xs

theorem listMax_map_mono [Zero α] {β : Type} [LinearOrder β] [Zero β] {f : α → β}
    (hf : Monotone f) {l : List α} (hl : l ≠ []) :
    listMax (l.map f) = f (listMax l) := by
  cases l with
  | nil => exact absurd rfl hl
  | cons x xs => exact foldl_max_map_mono hf x xs

end ListMinMaxLemmas

section TensorElems

variable {α : Type}

theorem Tensor3.mem_idx_iff (t : Tensor3 α) (p : Nat × Nat × Nat) :
    p ∈ t.idx ↔ p.1 < t.height ∧ p.2.1 < t.width ∧ p.2.2 < t.channels := by
  obtain ⟨i, j, k⟩ := p
  simp only [Tensor3.idx, List.mem_flatMap, List.mem_map, List.mem_range,
    Prod.mk.injEq]
  constructor
  · rintro ⟨a, ha, b, hb, c, hc, rfl, rfl, rfl⟩
    exact ⟨ha, hb, hc⟩
  · rintro ⟨hi, hj, hk⟩
    exact ⟨i, hi, j, hj, k, hk, rfl, rfl, rfl⟩

theorem Tensor3.data_mem_elems (t : Tensor3 α) {i j k : Nat}
    (hi : i < t.height) (hj : j < t.width) (hk : k < t.channels) :
    t.data i j k ∈ t.elems := by
  refine List.mem_map.mpr ⟨(i, j, k), ?_, rfl⟩
  exact (t.mem_idx_iff (i, j, k)).mpr ⟨hi, hj, hk⟩

theorem Tensor3.of_mem_elems (t : Tensor3 α) {e : α} (he : e ∈ t.elems) :
    ∃ i j k, i < t.height ∧ j < t.width ∧ k < t.channels ∧
      e = t.data i j k := by
  obtain ⟨⟨i, j, k⟩, hp, rfl⟩ := List.mem_map.mp he
  obtain ⟨hi, hj, hk⟩ := (t.mem_idx_iff (i, j, k)).mp hp
  exact ⟨i, j, k, hi, hj, hk, rfl⟩

theorem Tensor3.idx_mapElems (f : α → α) (t : Tensor3 α) :
    (Tensor3.mapElems f t).idx = t.idx := rfl

theorem Tensor3.elems_mapElems (f : α → α) (t : Tensor3 α) :
    (Tensor3.mapElems f t).elems = t.elems.map f := by
  unfold Tensor3.elems
  rw [Tensor3.idx_mapElems, List.map_map]
  rfl

theorem Tensor3.elems_ne_nil (t : Tensor3 α)
    (hh : 0 < t.height) (hw : 0 < t.width) (hc : 0 < t.channels) :
    t.elems ≠ [] := by
  intro h
  have : t.data 0 0 0 ∈ t.elems := t.data_mem_elems hh hw hc
  rw [h] at this
  cases this

end TensorElems

section TensorMinMax

variable {α : Type} [LinearOrder α] [Zero α]

theorem Tensor3.minVal_le_data (t : Tensor3 α) {i j k : Nat}
    (hi : i < t.height) (hj : j < t.width) (hk : k < t.channels) :
    t.minVal ≤ t.data i j k :=
  listMin_le_mem (t.data_mem_elems hi hj hk)

theorem Tensor3.data_le_maxVal (t : Tensor3 α) {i j k : Nat}
    (hi : i < t.height) (hj : j < t.width) (hk : k < t.channels) :
    t.data i j k ≤ t.maxVal :=
  le_listMax_mem (t.data_mem_elems hi hj hk)

theorem Tensor3.minVal_le_maxVal (t : Tensor3 α)
    (hh : 0 < t.height) (hw : 0 < t.width) (hc : 0 < t.channels) :
    t.minVal ≤ t.maxVal :=
  le_trans (t.minVal_le_data hh hw hc) (t.data_le_maxVal hh hw hc)

theorem Tensor3.minVal_mapElems_mono {f : α → α} (hf : Monotone f)
    (t : Tensor3 α)
    (hh : 0 < t.height) (hw : 0 < t.width) (hc : 0 < t.channels) :
    (Tensor3.mapElems f t).minVal = f t.minVal := by
  unfold Tensor3.minVal
  rw [Tensor3.elems_mapElems]
  exact listMin_map_mono hf (t.elems_ne_nil hh hw hc)

theorem Tensor3.maxVal_mapElems_mono {f : α → α} (hf : Monotone f)
    (t : Tensor3 α)
    (hh : 0 < t.height) (hw : 0 < t.width) (hc : 0 < t.channels) :
    (Tensor3.mapElems f t).maxVal = f t.maxVal := by
  unfold Tensor3.maxVal
  rw [Tensor3.elems_mapElems]
  exact listMax_map_mono hf (t.elems_ne_nil hh hw hc)

end TensorMinMax

section NormalizeLemmas

variable {α : Type} [LinearOrderedField α]

theorem normalizeTensor_data (t : Tensor3 α) (mn mx : α) (i j k : Nat) :
    (normalizeTensor t mn mx).data i j k =
      (t.data i j k - t.minVal) / max (t.maxVal - t.minVal) (1 / 1000000)
        * (mx - mn) + mn := rfl

theorem normalizeTensor_shape (t : Tensor3 α) (mn mx : α) :
    (normalizeTensor t mn mx).height = t.height ∧
    (normalizeTensor t mn mx).width = t.width ∧
    (normalizeTensor t mn mx).channels = t.channels :=
  ⟨rfl, rfl, rfl⟩

theorem normalizeRange_pos (t : Tensor3 α) :
    (0 : α) < max (t.maxVal - t.minVal) (1 / 1000000) :=
  lt_of_lt_of_le (by norm_num) (le_max_right _ _)

theorem normalizeAffine_monotone {m R d : α} (hR : 0 < R) (hd : 0 ≤ d)
    (mn : α) : Monotone fun v => (v - m) / R * d + mn := by
  intro a b hab
  dsimp only
  gcongr

theorem normalizeTensor_mem_Icc (t : Tensor3 α) {mn mx : α} (hmn : mn ≤ mx)
    {i j k : Nat} (hi : i < t.height) (hj : j < t.width)
    (hk : k < t.channels) :
    (normalizeTensor t mn mx).data i j k ∈ Set.Icc mn mx := by
  have hR := normalizeRange_pos t
  have h1 : 0 ≤ t.data i j k - t.minVal :=
    sub_nonneg.mpr (t.minVal_le_data hi hj hk)
  have h2 : t.data i j k - t.minVal ≤
      max (t.maxVal - t.minVal) (1 / 1000000) :=
    le_trans (sub_le_sub_right (t.data_le_maxVal hi hj hk) _)
      (le_max_left _ _)
  have hq0 : 0 ≤ (t.data i j k - t.minVal) /
      max (t.maxVal - t.minVal) (1 / 1000000) := div_nonneg h1 hR.le
  have hq1 : (t.data i j k - t.minVal) /
      max (t.maxVal - t.minVal) (1 / 1000000) ≤ 1 := (div_le_one hR).mpr h2
  rw [normalizeTensor_data]
  have hd : 0 ≤ mx - mn := sub_nonneg.mpr hmn
  constructor
  · nlinarith
  · nlinarith

theorem normalizeTensor_endpoints (t : Tensor3 α) {mn mx : α}
    (hmn : mn ≤ mx) (hh : 0 < t.height) (hw : 0 < t.width)
    (hc : 0 < t.channels) (hs : 1 / 1000000 ≤ t.maxVal - t.minVal) :
    (normalizeTensor t mn mx).minVal = mn ∧
    (normalizeTensor t mn mx).maxVal = mx := by
  have hR : max (t.maxVal - t.minVal) (1 / 1000000) = t.maxVal - t.minVal :=
    max_eq_left hs
  have hspos : (0 : α) < t.maxVal - t.minVal :=
    lt_of_lt_of_le (by norm_num) hs
  have hmono : Monotone fun v =>
      (v - t.minVal) / max (t.maxVal - t.minVal) (1 / 1000000) * (mx - mn)
        + mn :=
    normalizeAffine_monotone (normalizeRange_pos t) (sub_nonneg.mpr hmn) mn
  unfold normalizeTensor
  rw [Tensor3.minVal_mapElems_mono hmono t hh hw hc,
    Tensor3.maxVal_mapElems_mono hmono t hh hw hc]
  constructor
  · simp
  · rw [hR, div_self (ne_of_gt hspos)]
    ring

theorem normalizeTensor_of_flat (t : Tensor3 α) {mn mx : α}
    (hflat : t.maxVal = t.minVal) {i j k : Nat} (hi : i < t.height)
    (hj : j < t.width) (hk : k < t.channels) :
    (normalizeTensor t mn mx).data i j k = mn := by
  have hdat : t.data i j k = t.minVal :=
    le_antisymm (hflat ▸ t.data_le_maxVal hi hj hk)
      (t.minVal_le_data hi hj hk)
  rw [normalizeTensor_data, hdat]
  simp

end NormalizeLemmas

section ListMinMem

variable {α : Type} [LinearOrder α]

theorem foldl_min_mem (a : α) (l : List α) : l.foldl min a ∈ a :: l := by
  induction l generalizing a with
  | nil => exact List.mem_singleton.mpr rfl
  | cons x xs ih =>
    have h := ih (min a x)
    rcases List.mem_cons.mp h with h' | h'
    · rcases min_choice a x with hm | hm
      · exact List.mem_cons.mpr (Or.inl (h'.trans hm))
      · exact List.mem_cons.mpr (Or.inr (List.mem_cons.mpr
          (Or.inl (h'.trans hm))))
    · exact List.mem_cons.mpr (Or.inr (List.mem_cons.mpr (Or.inr h')))

theorem foldl_max_mem (a : α) (l : List α) : l.foldl max a ∈ a :: l := by
  induction l generalizing a with
  | nil => exact List.mem_singleton.mpr rfl
  | cons x xs ih =>
    have h := ih (max a x)
    rcases List.mem_cons.mp h with h' | h'
    · rcases max_choice a x with hm | hm
      · exact List.mem_cons.mpr (Or.inl (h'.trans hm))
      · exact List.mem_cons.mpr (Or.inr (List.mem_cons.mpr
          (Or.inl (h'.trans hm))))
    · exact List.mem_cons.mpr (Or.inr (List.mem_cons.mpr (Or.inr h')))

theorem listMin_mem [Zero α] {l : List α} (hl : l ≠ []) : listMin l ∈ l := by
  cases l with
  | nil => exact absurd rfl hl
  | cons x xs =>
    rcases List.mem_cons.mp (foldl_min_mem x xs) with h | h
    · exact List.mem_cons.mpr (Or.inl h)
    · exact List.mem_cons.mpr (Or.inr h)

theorem listMax_mem [Zero α] {l : List α} (hl : l ≠ []) : listMax l ∈ l := by
  cases l with
  | nil => exact absurd rfl hl
  | cons x xs =>
    rcases List.mem_cons.mp (foldl_max_mem x xs) with h | h
    · exact List.mem_cons.mpr (Or.inl h)
    · exact List.mem_cons.mpr (Or.inr h)

end ListMinMem

section FlatTensor

variable {α : Type} [LinearOrderedField α]

theorem Tensor3.minVal_of_const {t : Tensor3 α} {c : α}
    (hh : 0 < t.height) (hw : 0 < t.width) (hc : 0 < t.channels)
    (hconst : ∀ i < t.height, ∀ j < t.width, ∀ k < t.channels,
      t.data i j k = c) :
    t.minVal = c := by
  have hmem := listMin_mem (t.elems_ne_nil hh hw hc)
  obtain ⟨i, j, k, hi, hj, hk, he⟩ := t.of_mem_elems hmem
  exact he.trans (hconst i hi j hj k hk)

theorem Tensor3.maxVal_of_const {t : Tensor3 α} {c : α}
    (hh : 0 < t.height) (hw : 0 < t.width) (hc : 0 < t.channels)
    (hconst : ∀ i < t.height, ∀ j < t.width, ∀ k < t.channels,
      t.data i j k = c) :
    t.maxVal = c := by
  have hmem := listMax_mem (t.elems_ne_nil hh hw hc)
  obtain ⟨i, j, k, hi, hj, hk, he⟩ := t.of_mem_elems hmem
  exact he.trans (hconst i hi j hj k hk)

end FlatTensor


/-- Concrete rank-3 tensor over ℚ with elements 0 and 1e-7: its spread is
positive but below the code's 1e-6 denominator clamp. -/
def tinySpreadTensor : Tensor3 ℚ :=
  ⟨1, 2, 1, fun _ j _ => if j = 0 then 0 else 1 / 10000000⟩

theorem tinySpreadTensor_minVal : tinySpreadTensor.minVal = 0 := by
  have he : tinySpreadTensor.elems = [(0 : ℚ), 1 / 10000000] := rfl
  rw [Tensor3.minVal, he]
  show min (0 : ℚ) (1 / 10000000) = 0
  exact min_eq_left (by norm_num)

theorem tinySpreadTensor_maxVal : tinySpreadTensor.maxVal = 1 / 10000000 := by
  have he : tinySpreadTensor.elems = [(0 : ℚ), 1 / 10000000] := rfl
  rw [Tensor3.maxVal, he]
  show max (0 : ℚ) (1 / 10000000) = 1 / 10000000
  exact max_eq_right (by norm_num)

theorem tinySpreadTensor_norm_data0 :
    (normalizeTensor tinySpreadTensor 0 1).data 0 0 0 = 0 := by
  rw [normalizeTensor_data, tinySpreadTensor_minVal, tinySpreadTensor_maxVal]
  have hd : tinySpreadTensor.data 0 0 0 = 0 := rfl
  rw [hd]
  norm_num

theorem tinySpreadTensor_norm_data1 :
    (normalizeTensor tinySpreadTensor 0 1).data 0 1 0 = 1 / 10 := by
  rw [normalizeTensor_data, tinySpreadTensor_minVal, tinySpreadTensor_maxVal]
  rw [max_eq_right (by norm_num : ((1 : ℚ) / 10000000 - 0) ≤ 1 / 1000000)]
  show ((if (1 : Nat) = 0 then (0 : ℚ) else 1 / 10000000) - 0) /
      (1 / 1000000) * (1 - 0) + 0 = 1 / 10
  norm_num

theorem tinySpreadTensor_norm_minVal :
    (normalizeTensor tinySpreadTensor 0 1).minVal = 0 := by
  have he : (normalizeTensor tinySpreadTensor 0 1).elems =
      [(normalizeTensor tinySpreadTensor 0 1).data 0 0 0,
        (normalizeTensor tinySpreadTensor 0 1).data 0 1 0] := rfl
  rw [Tensor3.minVal, he, tinySpreadTensor_norm_data0,
    tinySpreadTensor_norm_data1]
  show min (0 : ℚ) (1 / 10) = 0
  exact min_eq_left (by norm_num)

theorem tinySpreadTensor_norm_maxVal :
    (normalizeTensor tinySpreadTensor 0 1).maxVal = 1 / 10 := by
  have he : (normalizeTensor tinySpreadTensor 0 1).elems =
      [(normalizeTensor tinySpreadTensor 0 1).data 0 0 0,
        (normalizeTensor tinySpreadTensor 0 1).data 0 1 0] := rfl
  rw [Tensor3.maxVal, he, tinySpreadTensor_norm_data0,
    tinySpreadTensor_norm_data1]
  show max (0 : ℚ) (1 / 10) = 1 / 10
  exact max_eq_right (by norm_num)

/-- Claim C4 (counterexample to the claim as stated): `tinySpreadTensor` is
non-degenerate (`max > min`), yet normalizing it into `[0, 1]` does not
reach the upper endpoint: the clamped denominator `max(spread, 1e-6)`
exceeds the actual spread `1e-7`, so the result's maximum is 1/10, not 1. -/
theorem normalizeTensor_max_endpoint_counterexample :
    tinySpreadTensor.minVal < tinySpreadTensor.maxVal ∧
    (normalizeTensor tinySpreadTensor 0 1).maxVal ≠ 1 := by
  constructor
  · rw [tinySpreadTensor_minVal, tinySpreadTensor_maxVal]
    norm_num
  · rw [tinySpreadTensor_norm_maxVal]
    norm_num

/-- Claim C4 (amended): for `min ≤ max`, every element of
`normalizeTensor t min max` lies in `[min, max]`; the result is the affine
image of the data with denominator `max(t.max - t.min, 1e-6)`; when the
spread `t.max - t.min` is at least `1e-6` (rather than merely positive, as
the claim stated), the denominator equals the spread, so the result is the
exact linear map of `[t.min, t.max]` onto `[min, max]` and attains both
endpoints; and a constant tensor normalizes to `min` everywhere. -/
theorem normalizeTensor_range_spec {α : Type} [LinearOrderedField α]
    (t : Tensor3 α) (mn mx : α) (hmn : mn ≤ mx)
    (hh : 0 < t.height) (hw : 0 < t.width) (hc : 0 < t.channels) :
    (∀ i < t.height, ∀ j < t.width, ∀ k < t.channels,
        (normalizeTensor t mn mx).data i j k ∈ Set.Icc mn mx)
    ∧ (∀ i j k, (normalizeTensor t mn mx).data i j k =
        (t.data i j k - t.minVal) /
          max (t.maxVal - t.minVal) (1 / 1000000) * (mx - mn) + mn)
    ∧ (1 / 1000000 ≤ t.maxVal - t.minVal →
        (normalizeTensor t mn mx).minVal = mn ∧
        (normalizeTensor t mn mx).maxVal = mx)
    ∧ (t.maxVal = t.minVal →
        ∀ i < t.height, ∀ j < t.width, ∀ k < t.channels,
          (normalizeTensor t mn mx).data i j k = mn) := by
  refine ⟨?_, ?_, ?_, ?_⟩
  · intro i hi j hj k hk
    exact normalizeTensor_mem_Icc t hmn hi hj hk
  · intro i j k
    exact normalizeTensor_data t mn mx i j k
  · intro hs
    exact normalizeTensor_endpoints t hmn hh hw hc hs
  · intro hflat i hi j hj k hk
    exact normalizeTensor_of_flat t hflat hi hj hk

/-- Witness for `normalizeTensor_range_spec` at a concrete input: the
constant-zero 1×1×1 rational tensor with range `[0, 1]` normalizes to the
lower endpoint. -/
theorem normalizeTensor_range_spec_witness :
    ((0 : ℚ) ≤ 1 ∧ 0 < (1 : Nat) ∧
      (⟨1, 1, 1, fun _ _ _ => 0⟩ : Tensor3 ℚ).maxVal =
        (⟨1, 1, 1, fun _ _ _ => 0⟩ : Tensor3 ℚ).minVal) ∧
    ∀ i < (1 : Nat), ∀ j < (1 : Nat), ∀ k < (1 : Nat),
      (normalizeTensor (⟨1, 1, 1, fun _ _ _ => 0⟩ : Tensor3 ℚ) 0 1).data
        i j k = 0 :=
  ⟨⟨by norm_num, by norm_num, rfl⟩,
    (normalizeTensor_range_spec (⟨1, 1, 1, fun _ _ _ => 0⟩ : Tensor3 ℚ) 0 1
      (by norm_num) (by norm_num) (by norm_num) (by norm_num)).2.2.2 rfl⟩

/-- Claim C5 (counterexample to the claim as stated): normalization is not
idempotent for `tinySpreadTensor` with range `[0, 1]`: the first pass uses
the clamped denominator `1e-6` and lands on `{0, 1/10}`, whose spread now
exceeds `1e-6`, so the second pass rescales again, to `{0, 1}`. -/
theorem normalizeTensor_not_idempotent_counterexample :
    ¬ Tensor3.Eq3
      (normalizeTensor (normalizeTensor tinySpreadTensor 0 1) 0 1)
      (normalizeTensor tinySpreadTensor 0 1) := by
  intro hEq
  have h10 := hEq.2.2.2 0 (by decide) 1 (by decide) 0 (by decide)
  have hrr : (normalizeTensor (normalizeTensor tinySpreadTensor 0 1) 0
      1).data 0 1 0 = 1 := by
    rw [normalizeTensor_data, tinySpreadTensor_norm_minVal,
      tinySpreadTensor_norm_maxVal, tinySpreadTensor_norm_data1]
    rw [max_eq_left (by norm_num : ((1 : ℚ) / 1000000) ≤ 1 / 10 - 0)]
    norm_num
  rw [hrr, tinySpreadTensor_norm_data1] at h10
  norm_num at h10

/-- Claim C5 (amended): min-max normalization is idempotent for a fixed
range provided the clamp never bites: if the target width `max - min` is
at least `1e-6` and the input spread is either zero or at least `1e-6`
(excluding the sub-epsilon spreads of the counterexample), then
renormalizing an already-normalized tensor is a no-op. -/
theorem normalizeTensor_idempotent {α : Type} [LinearOrderedField α]
    (t : Tensor3 α) (mn mx : α)
    (hd : 1 / 1000000 ≤ mx - mn)
    (hh : 0 < t.height) (hw : 0 < t.width) (hc : 0 < t.channels)
    (hcase : t.maxVal = t.minVal ∨ 1 / 1000000 ≤ t.maxVal - t.minVal) :
    Tensor3.Eq3 (normalizeTensor (normalizeTensor t mn mx) mn mx)
      (normalizeTensor t mn mx) := by
  have hmn : mn ≤ mx := by nlinarith
  rcases hcase with hflat | hs
  · have hconst : ∀ i < (normalizeTensor t mn mx).height,
        ∀ j < (normalizeTensor t mn mx).width,
        ∀ k < (normalizeTensor t mn mx).channels,
        (normalizeTensor t mn mx).data i j k = mn := by
      intro i hi j hj k hk
      exact normalizeTensor_of_flat t hflat hi hj hk
    have hmin : (normalizeTensor t mn mx).minVal = mn :=
      Tensor3.minVal_of_const hh hw hc hconst
    have hmax : (normalizeTensor t mn mx).maxVal = mn :=
      Tensor3.maxVal_of_const hh hw hc hconst
    refine ⟨rfl, rfl, rfl, ?_⟩
    intro i hi j hj k hk
    rw [normalizeTensor_data, hmin, hmax, hconst i hi j hj k hk]
    simp
  · obtain ⟨hmin, hmax⟩ := normalizeTensor_endpoints t hmn hh hw hc hs
    refine ⟨rfl, rfl, rfl, ?_⟩
    intro i hi j hj k hk
    rw [normalizeTensor_data, hmin, hmax, max_eq_left hd]
    field_simp

/-- Witness for `normalizeTensor_idempotent` at a concrete input: the
constant-zero 1×1×1 rational tensor with range `[0, 1]`. -/
theorem normalizeTensor_idempotent_witness :
    ((1 : ℚ) / 1000000 ≤ 1 - 0 ∧
      (⟨1, 1, 1, fun _ _ _ => 0⟩ : Tensor3 ℚ).maxVal =
        (⟨1, 1, 1, fun _ _ _ => 0⟩ : Tensor3 ℚ).minVal) ∧
    Tensor3.Eq3
      (normalizeTensor
        (normalizeTensor (⟨1, 1, 1, fun _ _ _ => 0⟩ : Tensor3 ℚ) 0 1) 0 1)
      (normalizeTensor (⟨1, 1, 1, fun _ _ _ => 0⟩ : Tensor3 ℚ) 0 1) :=
  ⟨⟨by norm_num, rfl⟩,
    normalizeTensor_idempotent (⟨1, 1, 1, fun _ _ _ => 0⟩ : Tensor3 ℚ) 0 1
      (by norm_num) (by norm_num) (by norm_num) (by norm_num)
      (Or.inl rfl)⟩

/-- Kernel tables keyed by gradient axis, from `src/kernels.ts`
(`KernelDefinitions`): partial maps from kernel size to coefficient
matrix. -/
structure KernelDefinitions where
  x : Nat → Option (List (List Int))
  y : Nat → Option (List (List Int))

/-- The `KERNELS` constant from `src/kernels.ts`: pre-defined Sobel
kernels for sizes 3, 5 and 7, for both gradient axes. -/
def KERNELS : KernelDefinitions where
  x := fun s =>
    if s = 3 then
      some [[-1, 0, 1], [-2, 0, 2], [-1, 0, 1]]
    else if s = 5 then
      some [[-1, -2, 0, 2, 1], [-4, -8, 0, 8, 4], [-6, -12, 0, 12, 6],
        [-4, -8, 0, 8, 4], [-1, -2, 0, 2, 1]]
    else if s = 7 then
      some [[-1, -4, -5, 0, 5, 4, 1], [-6, -20, -30, 0, 30, 20, 6],
        [-15, -50, -75, 0, 75, 50, 15], [-20, -60, -90, 0, 90, 60, 20],
        [-15, -50, -75, 0, 75, 50, 15], [-6, -20, -30, 0, 30, 20, 6],
        [-1, -4, -5, 0, 5, 4, 1]]
    else none
  y := fun s =>
    if s = 3 then
      some [[-1, -2, -1], [0, 0, 0], [1, 2, 1]]
    else if s = 5 then
      some [[-1, -4, -6, -4, -1], [-2, -8, -12, -8, -2], [0, 0, 0, 0, 0],
        [2, 8, 12, 8, 2], [1, 4, 6, 4, 1]]
    else if s = 7 then
      some [[-1, -6, -15, -20, -15, -6, -1], [-4, -20, -50, -60, -50, -20, -4],
        [-5, -30, -75, -90, -75, -30, -5], [0, 0, 0, 0, 0, 0, 0],
        [5, 30, 75, 90, 75, 30, 5], [4, 20, 50, 60, 50, 20, 4],
        [1, 6, 15, 20, 15, 6, 1]]
    else none

/-- `isValidKernelSize` from `src/kernels.ts`: `size in KERNELS.x`. -/
def isValidKernelSize (size : Nat) : Bool :=
  (KERNELS.x size).isSome

/-- `getAvailableKernelSizes` from `src/kernels.ts`: `Object.keys(KERNELS.x)`
(numeric keys, ascending). -/
def getAvailableKernelSizes : List Nat :=
  [3, 5, 7]

theorem isValidKernelSize_iff (k : Nat) :
    isValidKernelSize k = true ↔ k = 3 ∨ k = 5 ∨ k = 7 := by
  unfold isValidKernelSize KERNELS
  dsimp only
  split_ifs with h3 h5 h7 <;> simp_all

/-- The five output formats of `src/types.ts` (`OutputFormat`). -/
inductive OutputFormat where
  | x
  | y
  | magnitude
  | direction
  | normalized
deriving DecidableEq

/-- The string key of an output format (the key under which its processor
is registered in `OUTPUT_PROCESSORS`). -/
def formatKey : OutputFormat → String
  | OutputFormat.x => "x"
  | OutputFormat.y => "y"
  | OutputFormat.magnitude => "magnitude"
  | OutputFormat.direction => "direction"
  | OutputFormat.normalized => "normalized"

/-- Lookup of a registered output processor by string key
(`format in OUTPUT_PROCESSORS` from `src/processors.ts`), as a parse into
the enumerated format type. -/
def parseOutputFormat (f : String) : Option OutputFormat :=
  if f = "x" then some OutputFormat.x
  else if f = "y" then some OutputFormat.y
  else if f = "magnitude" then some OutputFormat.magnitude
  else if f = "direction" then some OutputFormat.direction
  else if f = "normalized" then some OutputFormat.normalized
  else none

/-- `isValidOutputFormat` from `src/processors.ts`. -/
def isValidOutputFormat (f : String) : Bool :=
  (parseOutputFormat f).isSome

/-- `getAvailableOutputFormats` from `src/processors.ts`:
`Object.keys(OUTPUT_PROCESSORS)` in insertion order. -/
def getAvailableOutputFormats : List String :=
  ["x", "y", "magnitude", "direction", "normalized"]

/-- The `SobelOptions` record of `src/types.ts` (every field optional), as
passed to the constructor and to `configure`.  `normalizationRange` values
are modelled as exact rationals. -/
structure SobelOptionsM where
  kernelSize : Option Nat := none
  output : Option String := none
  normalizationRange : Option (ℚ × ℚ) := none
  grayscale : Option Bool := none
  normalizeOutputForDisplay : Option Bool := none

/-- The configuration state of a `SobelFilter` instance
(`this.kernelSize`, `this.output`, `this.options` in `src/sobel.ts`). -/
structure SobelState where
  kernelSize : Nat
  output : OutputFormat
  grayscale : Bool
  normalizationRange : Option (ℚ × ℚ)
  normalizeOutputForDisplay : Bool
deriving DecidableEq

/-- The configuration errors thrown by `src/sobel.ts`; each carries the
list of supported values named in its message. -/
inductive ConfigError where
  | invalidKernelSize (supported : List Nat)
  | invalidOutputFormat (supported : List String)
deriving DecidableEq

/-- `options?.kernelSize || 3` from the constructor (`0` is falsy in JS). -/
def resolvedKernelSize (o : SobelOptionsM) : Nat :=
  match o.kernelSize with
  | some k => if k = 0 then 3 else k
  | none => 3

/-- `options?.output || 'magnitude'` from the constructor (the empty
string is falsy in JS). -/
def resolvedOutput (o : SobelOptionsM) : String :=
  match o.output with
  | some f => if f = "" then "magnitude" else f
  | none => "magnitude"

/-- The `SobelFilter` constructor from `src/sobel.ts`: fill in defaults,
then validate `kernelSize` (throwing a configuration error listing the
supported sizes), then validate the output format (throwing a
configuration error listing the supported formats). -/
def SobelFilter.construct (o : SobelOptionsM) : Except ConfigError SobelState :=
  let ks := resolvedKernelSize o
  let outS := resolvedOutput o
  if isValidKernelSize ks then
    match parseOutputFormat outS with
    | some fmt =>
        Except.ok
          { kernelSize := ks
            output := fmt
            grayscale := o.grayscale.getD false
            normalizationRange := o.normalizationRange
            normalizeOutputForDisplay :=
              o.normalizeOutputForDisplay.getD true }
    | none =>
        Except.error (ConfigError.invalidOutputFormat getAvailableOutputFormats)
  else
    Except.error (ConfigError.invalidKernelSize getAvailableKernelSizes)

/-- The tail of `SobelFilter.configure`: the non-validated fields
(`grayscale`, `normalizationRange`, `normalizeOutputForDisplay`) are
applied unconditionally when provided. -/
def SobelFilter.configureRest (s : SobelState) (o : SobelOptionsM) : SobelState :=
  let s1 :=
    match o.grayscale with
    | some g => { s with grayscale := g }
    | none => s
  let s2 :=
    match o.normalizationRange with
    | some r => { s1 with normalizationRange := some r }
    | none => s1
  match o.normalizeOutputForDisplay with
  | some b => { s2 with normalizeOutputForDisplay := b }
  | none => s2

/-- The output-format step of `SobelFilter.configure`: validate and apply
`options.output` if provided, then continue with the remaining fields.  On
failure the state reached so far is returned together with the error (the
TypeScript method throws, leaving `this` as already mutated). -/
def SobelFilter.configureOutput (s : SobelState) (o : SobelOptionsM) :
    SobelState × Option ConfigError :=
  match o.output with
  | some f =>
    match parseOutputFormat f with
    | some fmt => (SobelFilter.configureRest { s with output := fmt } o, none)
    | none =>
        (s, some (ConfigError.invalidOutputFormat getAvailableOutputFormats))
  | none => (SobelFilter.configureRest s o, none)

/-- `SobelFilter.configure` from `src/sobel.ts`: validate and apply
`kernelSize` if provided, then validate and apply `output` if provided,
then apply the remaining fields.  The returned state is the observable
`this` after the call, also when the call throws (second component
`some e`). -/
def SobelFilter.configure (s : SobelState) (o : SobelOptionsM) :
    SobelState × Option ConfigError :=
  match o.kernelSize with
  | some k =>
    if isValidKernelSize k then SobelFilter.configureOutput { s with kernelSize := k } o
    else (s, some (ConfigError.invalidKernelSize getAvailableKernelSizes))
  | none => SobelFilter.configureOutput s o

/-- A concrete validly-configured filter state (kernel 3, magnitude
output), as produced by a default construction. -/
def baseState : SobelState where
  kernelSize := 3
  output := OutputFormat.magnitude
  grayscale := false
  normalizationRange := none
  normalizeOutputForDisplay := true

/-- Claim C1 (counterexample to the claim as stated): reconfiguring with a
valid `kernelSize` (5) together with an invalid output format throws the
configuration error, yet the instance's `kernelSize` has already been
updated from 3 to 5 — the prior configuration is not retained. -/
theorem configure_not_atomic_counterexample :
    (SobelFilter.configure baseState
      { kernelSize := some 5, output := some ("invalid") }).2 =
        some (ConfigError.invalidOutputFormat getAvailableOutputFormats) ∧
    (SobelFilter.configure baseState
      { kernelSize := some 5, output := some ("invalid") }).1.kernelSize = 5 ∧
    baseState.kernelSize = 3 :=
  ⟨rfl, rfl, rfl⟩

/-- The state an all-valid `configure` call produces: every provided field
overwrites the prior one, in the order the method applies them. -/
def SobelFilter.appliedState (s : SobelState) (o : SobelOptionsM) : SobelState :=
  let s1 :=
    match o.kernelSize with
    | some k => { s with kernelSize := k }
    | none => s
  let s2 :=
    match o.output with
    | some f =>
      match parseOutputFormat f with
      | some fmt => { s1 with output := fmt }
      | none => s1
    | none => s1
  SobelFilter.configureRest s2 o

/-- Claim C1 (amended): `configure` validates and applies the provided
fields sequentially, in the order `kernelSize`, `output`, `grayscale`,
`normalizationRange`, `normalizeOutputForDisplay`, validating each field
immediately before assigning it.  If every provided field validates, all
are applied and the call succeeds.  If `kernelSize` is provided and
invalid, the call fails with the kernel-size configuration error and the
whole prior state is retained.  But the call is not atomic: if `output` is
provided and invalid while `kernelSize` is provided and valid, the call
fails with the output-format configuration error with the new `kernelSize`
already applied (only the fields at and after the failing one retain their
prior values). -/
theorem configure_sequential_spec (s : SobelState) (o : SobelOptionsM) :
    (∀ k, o.kernelSize = some k → isValidKernelSize k = false →
      SobelFilter.configure s o =
        (s, some (ConfigError.invalidKernelSize getAvailableKernelSizes)))
    ∧ (∀ f, o.output = some f → parseOutputFormat f = none →
        (o.kernelSize = none →
          SobelFilter.configure s o =
            (s, some (ConfigError.invalidOutputFormat
              getAvailableOutputFormats)))
        ∧ (∀ k, o.kernelSize = some k → isValidKernelSize k = true →
            SobelFilter.configure s o =
              ({ s with kernelSize := k },
                some (ConfigError.invalidOutputFormat
                  getAvailableOutputFormats))))
    ∧ ((∀ k, o.kernelSize = some k → isValidKernelSize k = true) →
        (∀ f, o.output = some f → (parseOutputFormat f).isSome = true) →
        SobelFilter.configure s o = (SobelFilter.appliedState s o, none)) := by
  refine ⟨?_, ?_, ?_⟩
  · intro k hk hbad
    simp [SobelFilter.configure, hk, hbad]
  · intro f hf hbad
    constructor
    · intro hnone
      simp [SobelFilter.configure, SobelFilter.configureOutput, hnone, hf,
        hbad]
    · intro k hk hgood
      simp [SobelFilter.configure, SobelFilter.configureOutput, hk, hgood,
        hf, hbad]
  · intro hks hout
    cases hk : o.kernelSize with
    | none =>
      cases hf : o.output with
      | none =>
        simp [SobelFilter.configure, SobelFilter.configureOutput,
          SobelFilter.appliedState, hk, hf]
      | some f =>
        cases hpf : parseOutputFormat f with
        | none =>
          have hcontra := hout f hf
          rw [hpf] at hcontra
          cases hcontra
        | some fmt =>
          simp [SobelFilter.configure, SobelFilter.configureOutput,
            SobelFilter.appliedState, hk, hf, hpf]
    | some k =>
      have hv := hks k hk
      cases hf : o.output with
      | none =>
        simp [SobelFilter.configure, SobelFilter.configureOutput,
          SobelFilter.appliedState, hk, hf, hv]
      | some f =>
        cases hpf : parseOutputFormat f with
        | none =>
          have hcontra := hout f hf
          rw [hpf] at hcontra
          cases hcontra
        | some fmt =>
          simp [SobelFilter.configure, SobelFilter.configureOutput,
            SobelFilter.appliedState, hk, hf, hv, hpf]

/-- Witness for `configure_sequential_spec`: an all-valid reconfiguration
(kernel 5, output `x`, grayscale on) applies every provided field. -/
theorem configure_sequential_spec_witness :
    SobelFilter.configure baseState
      { kernelSize := some 5, output := some ("x"), grayscale := some true } =
      (SobelFilter.appliedState baseState
        { kernelSize := some 5, output := some ("x"), grayscale := some true },
        none) :=
  (configure_sequential_spec baseState
    { kernelSize := some 5, output := some ("x"), grayscale := some true }).2.2
    (by
      intro k hk
      have h5 := Option.some.inj hk
      rw [← h5]
      rfl)
    (by
      intro f hf
      have hx := Option.some.inj hf
      rw [← hx]
      rfl)

/-- Claim C9: construction validates `kernelSize` first (failing with a
configuration error listing the supported sizes 3, 5, 7), then the output
format (failing with a configuration error listing the five registered
formats), and any successfully constructed filter carries a validated
kernel size and a registered output format. -/
theorem construct_validates (o : SobelOptionsM) :
    (isValidKernelSize (resolvedKernelSize o) = false →
      SobelFilter.construct o =
        Except.error (ConfigError.invalidKernelSize getAvailableKernelSizes))
    ∧ (isValidKernelSize (resolvedKernelSize o) = true →
        parseOutputFormat (resolvedOutput o) = none →
        SobelFilter.construct o =
          Except.error
            (ConfigError.invalidOutputFormat getAvailableOutputFormats))
    ∧ (∀ st, SobelFilter.construct o = Except.ok st →
        isValidKernelSize st.kernelSize = true ∧
        st.kernelSize ∈ getAvailableKernelSizes ∧
        formatKey st.output ∈ getAvailableOutputFormats) := by
  refine ⟨?_, ?_, ?_⟩
  · intro hbad
    unfold SobelFilter.construct
    simp [hbad]
  · intro hgood hbad
    unfold SobelFilter.construct
    simp only [hgood, if_true, hbad]
  · intro st hok
    unfold SobelFilter.construct at hok
    by_cases hv : isValidKernelSize (resolvedKernelSize o) = true
    · rw [if_pos hv] at hok
      cases hpf : parseOutputFormat (resolvedOutput o) with
      | none => rw [hpf] at hok; cases hok
      | some fmt =>
        rw [hpf] at hok
        have hst := Except.ok.inj hok
        refine ⟨?_, ?_, ?_⟩
        · rw [← hst]
          exact hv
        · rw [← hst]
          have := (isValidKernelSize_iff (resolvedKernelSize o)).mp hv
          simpa [getAvailableKernelSizes] using this
        · rw [← hst]
          cases fmt <;> simp [formatKey, getAvailableOutputFormats]
    · rw [if_neg hv] at hok
      cases hok

/-- Witness for `construct_validates`: `kernelSize = 4` fails listing the
sizes `[3, 5, 7]`, and `output = 'invalid'` fails listing the five
registered formats. -/
theorem construct_validates_witness :
    SobelFilter.construct { kernelSize := some 4 } =
      Except.error (ConfigError.invalidKernelSize getAvailableKernelSizes) ∧
    SobelFilter.construct { output := some ("invalid") } =
      Except.error (ConfigError.invalidOutputFormat getAvailableOutputFormats) :=
  ⟨(construct_validates { kernelSize := some 4 }).1 rfl,
    (construct_validates { output := some ("invalid") }).2.1 rfl rfl⟩

/-- `Math.atan2`-style two-argument arctangent (tf.atan2 semantics): the
argument of the complex number `x + y·i`, ranging over `(−π, π]` with
`atan2 0 0 = 0`. -/
noncomputable def atan2 (y x : ℝ) : ℝ :=
  Complex.arg ⟨x, y⟩

/-- The gradient axis argument of `createSobelKernel` (the string
`'x' | 'y'` in the source). -/
inductive GradAxis where
  | x
  | y

/-- A rank-4 convolution kernel `[kh, kw, inChannels, 1]` as produced by
`createSobelKernel` (the trailing channel-multiplier axis is fixed at 1
and kept implicit). -/
structure Kernel4 (α : Type) where
  kh : Nat
  kw : Nat
  channels : Nat
  data : Nat → Nat → Nat → α

/-- Entry of a coefficient matrix stored as a list of rows (0 outside). -/
def matrixEntry (m : List (List Int)) (i j : Nat) : Int :=
  (m.getD i []).getD j 0

/-- The kernel table of the requested axis. -/
def axisKernels : GradAxis → Nat → Option (List (List Int))
  | GradAxis.x => KERNELS.x
  | GradAxis.y => KERNELS.y

/-- `createSobelKernel` from `src/utils/tensor-utils.ts`: look up
`KERNELS[direction][kernelSize]`, reshape to `[k, k, 1, 1]` and tile
across the channel axis, so every channel receives the same
coefficients. -/
noncomputable def createSobelKernel (direction : GradAxis)
    (kernelSize channels : Nat) : Kernel4 ℝ where
  kh := kernelSize
  kw := kernelSize
  channels := channels
  data := fun dy dx _c =>
    ((matrixEntry ((axisKernels direction kernelSize).getD []) dy dx : Int) : ℝ)

/-- `tensor.expandDims(0)`: add a leading unit batch axis. -/
def Tensor3.expandDims0 {α : Type} (t : Tensor3 α) : Tensor4 α where
  batch := 1
  height := t.height
  width := t.width
  channels := t.channels
  data := fun _b i j k => t.data i j k

/-- `tensor.squeeze([0])`: drop the leading unit batch axis. -/
def Tensor4.squeeze0 {α : Type} (t : Tensor4 α) : Tensor3 α where
  height := t.height
  width := t.width
  channels := t.channels
  data := fun i j k => t.data 0 i j k

/-- Zero-padded spatial read: `'same'` padding reads 0 outside the
spatial bounds. -/
def Tensor4.atPad {α : Type} [Zero α] (t : Tensor4 α) (b : Nat)
    (y x : Int) (c : Nat) : α :=
  if 0 ≤ y ∧ y < (t.height : Int) ∧ 0 ≤ x ∧ x < (t.width : Int) then
    t.data b y.toNat x.toNat c
  else 0

/-- `tf.depthwiseConv2d(input, kernel, 1, 'same')`: stride-1
cross-correlation applied independently per channel with zero `'same'`
padding (`(k-1)/2` on each side for the odd sizes used here); the output
spatial size equals the input's. -/
noncomputable def depthwiseConv2dSame (t : Tensor4 ℝ) (k : Kernel4 ℝ) :
    Tensor4 ℝ where
  batch := t.batch
  height := t.height
  width := t.width
  channels := t.channels
  data := fun b y x c =>
    ∑ dy ∈ Finset.range k.kh, ∑ dx ∈ Finset.range k.kw,
      t.atPad b ((y : Int) + (dy : Int) - (((k.kh - 1) / 2 : Nat) : Int))
          ((x : Int) + (dx : Int) - (((k.kw - 1) / 2 : Nat) : Int)) c *
        k.data dy dx c

/-- `tensor.slice([0,0,0], [-1,-1,n])`: keep the first `n` channels. -/
def Tensor3.sliceChannels {α : Type} (t : Tensor3 α) (n : Nat) : Tensor3 α where
  height := t.height
  width := t.width
  channels := n
  data := t.data

/-- `tf.image.rgbToGrayscale`: luma-weighted average of the first three
channels with the tf.js coefficients `[0.2989, 0.587, 0.114]`. -/
noncomputable def rgbToGrayscale (t : Tensor3 ℝ) : Tensor3 ℝ where
  height := t.height
  width := t.width
  channels := 1
  data := fun i j _k =>
    (2989 / 10000) * t.data i j 0 + (587 / 1000) * t.data i j 1 +
      (114 / 1000) * t.data i j 2

/-- Result record of `ensureGrayscaleIfNeeded` (`{tensor,
newTensorCreated}` in the source), extended with a flag recording whether
the unsupported-channel-count `console.warn` branch ran. -/
structure GrayscaleResult where
  tensor : Tensor3 ℝ
  newTensorCreated : Bool
  warned : Bool

/-- `ensureGrayscaleIfNeeded` from `src/utils/tensor-utils.ts`.  The
float32 dtype conversion is the identity in this real-valued model.  Note
the fallthrough branches: a channel count outside {1, 3, 4} is *not*
rejected — the function logs a warning and returns the input tensor
unchanged. -/
noncomputable def ensureGrayscaleIfNeeded (input : Tensor3 ℝ)
    (grayscale : Bool) : GrayscaleResult :=
  if grayscale then
    if input.channels = 4 then
      { tensor := rgbToGrayscale (input.sliceChannels 3),
        newTensorCreated := true, warned := false }
    else if input.channels = 3 then
      { tensor := rgbToGrayscale input, newTensorCreated := true,
        warned := false }
    else if input.channels = 1 then
      { tensor := input, newTensorCreated := false, warned := false }
    else
      { tensor := input, newTensorCreated := false, warned := true }
  else
    if input.channels = 4 then
      { tensor := input.sliceChannels 3, newTensorCreated := true,
        warned := false }
    else if input.channels = 3 then
      { tensor := input, newTensorCreated := false, warned := false }
    else if input.channels = 1 then
      { tensor := input, newTensorCreated := false, warned := false }
    else
      { tensor := input, newTensorCreated := false, warned := true }

/-- `tf.add` on same-shape rank-4 tensors (shape taken from the first). -/
def Tensor4.add {α : Type} [Add α] (a b : Tensor4 α) : Tensor4 α where
  batch := a.batch
  height := a.height
  width := a.width
  channels := a.channels
  data := fun bb i j k => a.data bb i j k + b.data bb i j k

/-- `tf.square`. -/
def Tensor4.square {α : Type} [Monoid α] (t : Tensor4 α) : Tensor4 α :=
  Tensor4.mapElems (fun v => v ^ 2) t

/-- `tf.sqrt` elementwise. -/
noncomputable def Tensor4.sqrtAll (t : Tensor4 ℝ) : Tensor4 ℝ :=
  Tensor4.mapElems Real.sqrt t

/-- `tf.abs` elementwise. -/
def Tensor4.absAll (t : Tensor4 ℝ) : Tensor4 ℝ :=
  Tensor4.mapElems (fun v => |v|) t

/-- `tf.atan2(y, x)` elementwise (shape taken from the first argument). -/
noncomputable def Tensor4.atan2All (ty tx : Tensor4 ℝ) : Tensor4 ℝ where
  batch := ty.batch
  height := ty.height
  width := ty.width
  channels := ty.channels
  data := fun b i j k => atan2 (ty.data b i j k) (tx.data b i j k)

/-- `tf.slice(t, [0, 0, 0, c], [1, H, W, 1])`: one channel of a
rank-4 tensor. -/
def Tensor4.sliceChannel {α : Type} (t : Tensor4 α) (c : Nat) : Tensor4 α where
  batch := 1
  height := t.height
  width := t.width
  channels := 1
  data := fun b y x k => t.data b y x (k + c)

/-- `tf.concat(ts, 3)` for a list of single-channel rank-4 tensors, as
built by the per-channel loops in `src/processors.ts` (each list entry
contributes exactly one output channel, in order). -/
def concatChannels {α : Type} [Zero α] (ts : List (Tensor4 α)) : Tensor4 α where
  batch :=
    match ts with
    | [] => 0
    | t :: _ => t.batch
  height :=
    match ts with
    | [] => 0
    | t :: _ => t.height
  width :=
    match ts with
    | [] => 0
    | t :: _ => t.width
  channels := (ts.map Tensor4.channels).sum
  data := fun b y x c =>
    match ts.get? c with
    | some t => t.data b y x 0
    | none => 0

namespace OUTPUT_PROCESSORS

/-- The `x` strategy from `src/processors.ts`: `tf.abs` of its single
(first positional) parameter, which the call site binds to `gradX`. -/
noncomputable def x (gradX gradY : Tensor4 ℝ) : Tensor4 ℝ :=
  Tensor4.absAll gradX

/-- The `y` strategy from `src/processors.ts`.  Its implementation
declares a single parameter (named `gradY` in the source), which binds
the *first* positional argument of the call
`OUTPUT_PROCESSORS[format](gradX, gradY, options)` — i.e. `gradX`.  The
strategy therefore returns `abs(gradX)`, not `abs(gradY)`, despite its
doc comment. -/
noncomputable def y (gradX gradY : Tensor4 ℝ) : Tensor4 ℝ :=
  Tensor4.absAll gradX

/-- The `magnitude` strategy from `src/processors.ts`: for more than one
channel, slice each channel of both gradients, form
`sqrt(gx² + gy²)` per channel, and concatenate along the channel axis;
for a single channel, form `sqrt(gradX² + gradY²)` directly. -/
noncomputable def magnitude (gradX gradY : Tensor4 ℝ) : Tensor4 ℝ :=
  if 1 < gradX.channels then
    concatChannels ((List.range gradX.channels).map fun c =>
      Tensor4.sqrtAll (Tensor4.add (Tensor4.square (gradX.sliceChannel c))
        (Tensor4.square (gradY.sliceChannel c))))
  else
    Tensor4.sqrtAll (Tensor4.add (Tensor4.square gradX)
      (Tensor4.square gradY))

/-- The `direction` strategy from `src/processors.ts`:
`tf.atan2(gy, gx)` per channel (with the same slice/concat structure as
`magnitude` for more than one channel). -/
noncomputable def direction (gradX gradY : Tensor4 ℝ) : Tensor4 ℝ :=
  if 1 < gradX.channels then
    concatChannels ((List.range gradX.channels).map fun c =>
      Tensor4.atan2All (gradY.sliceChannel c) (gradX.sliceChannel c))
  else
    Tensor4.atan2All gradY gradX

/-- The `normalized` strategy from `src/processors.ts`: the magnitude
(per-channel slice/concat for more than one channel), min-max rescaled
into `options.normalizationRange ?? [0, 1]` with the global min/max of
the whole magnitude tensor and the `1e-6` denominator clamp.  The
internal try/catch fallbacks are unreachable in this total model. -/
noncomputable def normalized (gradX gradY : Tensor4 ℝ)
    (normalizationRange : Option (ℚ × ℚ)) : Tensor4 ℝ :=
  let mnmx := normalizationRange.getD (0, 1)
  let mn : ℝ := (mnmx.1 : ℚ)
  let mx : ℝ := (mnmx.2 : ℚ)
  if 1 < gradX.channels then
    let combinedMagnitude :=
      concatChannels ((List.range gradX.channels).map fun c =>
        Tensor4.sqrtAll (Tensor4.add
          (Tensor4.square (gradX.sliceChannel c))
          (Tensor4.square (gradY.sliceChannel c))))
    Tensor4.mapElems
      (fun v => (v - combinedMagnitude.minVal) /
        max (combinedMagnitude.maxVal - combinedMagnitude.minVal)
          (1 / 1000000) * (mx - mn) + mn)
      combinedMagnitude
  else
    let mag := Tensor4.sqrtAll (Tensor4.add (Tensor4.square gradX)
      (Tensor4.square gradY))
    Tensor4.mapElems
      (fun v => (v - mag.minVal) /
        max (mag.maxVal - mag.minVal) (1 / 1000000) * (mx - mn) + mn)
      mag

/-- Dispatch `OUTPUT_PROCESSORS[format](gradX, gradY, options)`. -/
noncomputable def apply (fmt : OutputFormat) (gradX gradY : Tensor4 ℝ)
    (normalizationRange : Option (ℚ × ℚ)) : Tensor4 ℝ :=
  match fmt with
  | OutputFormat.x => x gradX gradY
  | OutputFormat.y => y gradX gradY
  | OutputFormat.magnitude => magnitude gradX gradY
  | OutputFormat.direction => direction gradX gradY
  | OutputFormat.normalized => normalized gradX gradY normalizationRange

end OUTPUT_PROCESSORS

/-- `tf.zeros([h, w, c])`. -/
def zerosT3 (h w c : Nat) : Tensor3 ℝ :=
  ⟨h, w, c, fun _ _ _ => 0⟩

/-- The conditional display-normalization block at the end of
`applyToTensor`: rescale into `[0, 1]` via
`tf.where(range > 0, (t - min) / range, zerosLike(t))` with the global
min/max of the squeezed output. -/
noncomputable def displayNormalize (t : Tensor3 ℝ) : Tensor3 ℝ where
  height := t.height
  width := t.width
  channels := t.channels
  data := fun i j k =>
    if 0 < t.maxVal - t.minVal then
      (t.data i j k - t.minVal) / (t.maxVal - t.minVal)
    else 0

/-- `SobelFilter.applyToTensor` from `src/sobel.ts`, abstracted over the
convolution primitive: `conv` returning `none` models
`tf.depthwiseConv2d` throwing, which the surrounding try/catch converts
into an all-zero fallback tensor of the *original* input's shape after
logging the error (`console.error`).  The Bool records whether that
error path ran. -/
noncomputable def SobelFilter.applyToTensorWith
    (conv : Tensor4 ℝ → Kernel4 ℝ → Option (Tensor4 ℝ))
    (s : SobelState) (input : Tensor3 ℝ) : Tensor3 ℝ × Bool :=
  let g := ensureGrayscaleIfNeeded input s.grayscale
  let sobelXKernel := createSobelKernel GradAxis.x s.kernelSize
    g.tensor.channels
  let sobelYKernel := createSobelKernel GradAxis.y s.kernelSize
    g.tensor.channels
  let input4D := g.tensor.expandDims0
  match conv input4D sobelXKernel, conv input4D sobelYKernel with
  | some gradX, some gradY =>
    let output := OUTPUT_PROCESSORS.apply s.output gradX gradY
      s.normalizationRange
    let squeezedOutput := output.squeeze0
    if s.normalizeOutputForDisplay then
      (displayNormalize squeezedOutput, false)
    else
      (squeezedOutput, false)
  | _, _ => (zerosT3 input.height input.width input.channels, true)

/-- The actual convolution primitive used by the engine (total in this
model). -/
noncomputable def tfDepthwiseConv (t : Tensor4 ℝ) (k : Kernel4 ℝ) :
    Option (Tensor4 ℝ) :=
  some (depthwiseConv2dSame t k)

/-- `SobelFilter.applyToTensor` with the real convolution primitive. -/
noncomputable def SobelFilter.applyToTensor (s : SobelState)
    (input : Tensor3 ℝ) : Tensor3 ℝ :=
  (SobelFilter.applyToTensorWith tfDepthwiseConv s input).1

/-- `SobelFilter.getGradientComponents` from `src/sobel.ts`: one pass
computing both `sqrt(gradX² + gradY²)` and `atan2(gradY, gradX)` over the
same gradient pair, with the batch axis squeezed away.  (The source uses
`squeeze()` with no arguments, which also drops any other unit axis; the
model only records the value at each `[i, j, k]` index.) -/
noncomputable def SobelFilter.getGradientComponents (s : SobelState)
    (input : Tensor3 ℝ) : Tensor3 ℝ × Tensor3 ℝ :=
  let g := ensureGrayscaleIfNeeded input s.grayscale
  let sobelXKernel := createSobelKernel GradAxis.x s.kernelSize
    g.tensor.channels
  let sobelYKernel := createSobelKernel GradAxis.y s.kernelSize
    g.tensor.channels
  let input4D := g.tensor.expandDims0
  let gradX := depthwiseConv2dSame input4D sobelXKernel
  let gradY := depthwiseConv2dSame input4D sobelYKernel
  (Tensor4.squeeze0 (Tensor4.sqrtAll (Tensor4.add (Tensor4.square gradX)
      (Tensor4.square gradY))),
    Tensor4.squeeze0 (Tensor4.atan2All gradY gradX))

/-- `SobelFilter.applyWithFormat` from `src/sobel.ts`: save the current
output format, overwrite it for one `applyToTensor` call, and restore it
in a `finally` block.  The second component is the observable instance
state after the call. -/
noncomputable def SobelFilter.applyWithFormat (s : SobelState)
    (input : Tensor3 ℝ) (outputFormat : OutputFormat) :
    Tensor3 ℝ × SobelState :=
  let s1 := { s with output := outputFormat }
  (SobelFilter.applyToTensor s1 input, { s1 with output := s.output })

/-- `SobelFilter.applyWithFormat` abstracted over the wrapped call, so
that the `finally`-restore is visible on both the normal and the
exceptional exit (`Except.error`) of the wrapped `applyToTensor`. -/
def SobelFilter.applyWithFormatG {ε ρ : Type}
    (app : SobelState → Tensor3 ℝ → Except ε ρ) (s : SobelState)
    (input : Tensor3 ℝ) (outputFormat : OutputFormat) :
    Except ε ρ × SobelState :=
  let s1 := { s with output := outputFormat }
  (app s1 input, { s1 with output := s.output })

/-- Claim C10: `applyWithFormat` computes its result with the override
format for that one call, and the observable instance state afterwards —
also on an exceptional exit of the wrapped call, covered by the
`Except`-abstracted variant — equals the state from before the call in
every field (`output` is restored, nothing else is ever written). -/
theorem applyWithFormat_frame (s : SobelState) (input : Tensor3 ℝ)
    (fmt : OutputFormat) :
    (SobelFilter.applyWithFormat s input fmt).1 =
      SobelFilter.applyToTensor { s with output := fmt } input
    ∧ (SobelFilter.applyWithFormat s input fmt).2 = s
    ∧ ∀ (ε ρ : Type) (app : SobelState → Tensor3 ℝ → Except ε ρ),
        (SobelFilter.applyWithFormatG app s input fmt).1 =
          app { s with output := fmt } input
        ∧ (SobelFilter.applyWithFormatG app s input fmt).2 = s :=
  ⟨rfl, rfl, fun _ _ _ => ⟨rfl, rfl⟩⟩

/-- A convolution primitive that always throws. -/
def alwaysFailConv : Tensor4 ℝ → Kernel4 ℝ → Option (Tensor4 ℝ) :=
  fun _ _ => none

/-- Claim C3: if either depthwise-convolution call throws, `applyToTensor`
catches the exception rather than propagating it, returns an all-zero
tensor of the original input's shape (height, width, channels), and logs
the failure (the Bool flag records the `console.error` call). -/
theorem applyToTensor_conv_failure_fallback
    (conv : Tensor4 ℝ → Kernel4 ℝ → Option (Tensor4 ℝ))
    (s : SobelState) (input : Tensor3 ℝ)
    (hfail :
      conv (ensureGrayscaleIfNeeded input s.grayscale).tensor.expandDims0
          (createSobelKernel GradAxis.x s.kernelSize
            (ensureGrayscaleIfNeeded input s.grayscale).tensor.channels) =
          none ∨
      conv (ensureGrayscaleIfNeeded input s.grayscale).tensor.expandDims0
          (createSobelKernel GradAxis.y s.kernelSize
            (ensureGrayscaleIfNeeded input s.grayscale).tensor.channels) =
          none) :
    (SobelFilter.applyToTensorWith conv s input).1.height = input.height ∧
    (SobelFilter.applyToTensorWith conv s input).1.width = input.width ∧
    (SobelFilter.applyToTensorWith conv s input).1.channels =
      input.channels ∧
    (∀ i j k,
      (SobelFilter.applyToTensorWith conv s input).1.data i j k = 0) ∧
    (SobelFilter.applyToTensorWith conv s input).2 = true := by
  rcases hfail with h | h
  · simp only [SobelFilter.applyToTensorWith, h]
    exact ⟨rfl, rfl, rfl, fun i j k => rfl, trivial⟩
  · cases hx : conv
        (ensureGrayscaleIfNeeded input s.grayscale).tensor.expandDims0
        (createSobelKernel GradAxis.x s.kernelSize
          (ensureGrayscaleIfNeeded input s.grayscale).tensor.channels) with
    | none =>
      simp only [SobelFilter.applyToTensorWith, hx]
      exact ⟨rfl, rfl, rfl, fun i j k => rfl, trivial⟩
    | some gx =>
      simp only [SobelFilter.applyToTensorWith, hx, h]
      exact ⟨rfl, rfl, rfl, fun i j k => rfl, trivial⟩

/-- Witness for `applyToTensor_conv_failure_fallback`: the always-failing
convolution primitive on a concrete 2×3×1 input yields the logged all-zero
fallback. -/
theorem applyToTensor_conv_failure_fallback_witness :
    alwaysFailConv
        (ensureGrayscaleIfNeeded (zerosT3 2 3 1)
          baseState.grayscale).tensor.expandDims0
        (createSobelKernel GradAxis.x baseState.kernelSize
          (ensureGrayscaleIfNeeded (zerosT3 2 3 1)
            baseState.grayscale).tensor.channels) = none ∧
    (SobelFilter.applyToTensorWith alwaysFailConv baseState
      (zerosT3 2 3 1)).1.height = 2 ∧
    (∀ i j k,
      (SobelFilter.applyToTensorWith alwaysFailConv baseState
        (zerosT3 2 3 1)).1.data i j k = 0) ∧
    (SobelFilter.applyToTensorWith alwaysFailConv baseState
      (zerosT3 2 3 1)).2 = true :=
  ⟨rfl,
    (applyToTensor_conv_failure_fallback alwaysFailConv baseState
      (zerosT3 2 3 1) (Or.inl rfl)).1,
    (applyToTensor_conv_failure_fallback alwaysFailConv baseState
      (zerosT3 2 3 1) (Or.inl rfl)).2.2.2.1,
    (applyToTensor_conv_failure_fallback alwaysFailConv baseState
      (zerosT3 2 3 1) (Or.inl rfl)).2.2.2.2⟩

/-- Claim C7: every element of the `magnitude` strategy's output is
nonnegative, and every element of the `direction` strategy's output lies
in `(−π, π]`, for arbitrary gradient pairs (hence for the gradients of
every input raster under every configuration). -/
theorem magnitude_nonneg_direction_range :
    (∀ gx gy : Tensor4 ℝ, ∀ b i j k,
      0 ≤ (OUTPUT_PROCESSORS.magnitude gx gy).data b i j k) ∧
    (∀ gx gy : Tensor4 ℝ, ∀ b i j k,
      (OUTPUT_PROCESSORS.direction gx gy).data b i j k ∈
        Set.Ioc (-Real.pi) Real.pi) := by
  constructor
  · intro gx gy b i j k
    unfold OUTPUT_PROCESSORS.magnitude
    split_ifs with hch
    · simp only [concatChannels]
      rw [List.get?_map]
      cases (List.range gx.channels).get? k with
      | none => simp
      | some c =>
        simp only [Option.map_some']
        exact Real.sqrt_nonneg _
    · exact Real.sqrt_nonneg _
  · intro gx gy b i j k
    unfold OUTPUT_PROCESSORS.direction
    have hzero : (0 : ℝ) ∈ Set.Ioc (-Real.pi) Real.pi :=
      ⟨neg_lt_zero.mpr Real.pi_pos, Real.pi_pos.le⟩
    split_ifs with hch
    · simp only [concatChannels]
      rw [List.get?_map]
      cases (List.range gx.channels).get? k with
      | none => simpa using hzero
      | some c =>
        simp only [Option.map_some']
        exact Complex.arg_mem_Ioc _
    · exact Complex.arg_mem_Ioc _

theorem ensureGrayscaleIfNeeded_height (input : Tensor3 ℝ) (g : Bool) :
    (ensureGrayscaleIfNeeded input g).tensor.height = input.height := by
  unfold ensureGrayscaleIfNeeded
  split_ifs <;> rfl

theorem ensureGrayscaleIfNeeded_width (input : Tensor3 ℝ) (g : Bool) :
    (ensureGrayscaleIfNeeded input g).tensor.width = input.width := by
  unfold ensureGrayscaleIfNeeded
  split_ifs <;> rfl

theorem concatChannels_height_range_map {α : Type} [Zero α] {n : Nat}
    (hn : 0 < n) (f : Nat → Tensor4 α) :
    (concatChannels ((List.range n).map f)).height = (f 0).height := by
  obtain ⟨m, rfl⟩ := Nat.exists_eq_succ_of_ne_zero (Nat.pos_iff_ne_zero.mp hn)
  rw [List.range_succ_eq_map]
  rfl

theorem concatChannels_width_range_map {α : Type} [Zero α] {n : Nat}
    (hn : 0 < n) (f : Nat → Tensor4 α) :
    (concatChannels ((List.range n).map f)).width = (f 0).width := by
  obtain ⟨m, rfl⟩ := Nat.exists_eq_succ_of_ne_zero (Nat.pos_iff_ne_zero.mp hn)
  rw [List.range_succ_eq_map]
  rfl

theorem OUTPUT_PROCESSORS.apply_spatial (fmt : OutputFormat)
    (gx gy : Tensor4 ℝ) (r : Option (ℚ × ℚ))
    (hh : gy.height = gx.height) (hw : gy.width = gx.width) :
    (OUTPUT_PROCESSORS.apply fmt gx gy r).height = gx.height ∧
    (OUTPUT_PROCESSORS.apply fmt gx gy r).width = gx.width := by
  cases fmt with
  | x => exact ⟨rfl, rfl⟩
  | y => exact ⟨rfl, rfl⟩
  | magnitude =>
    unfold OUTPUT_PROCESSORS.apply OUTPUT_PROCESSORS.magnitude
    split_ifs with hch
    · have h0 : 0 < gx.channels := Nat.lt_of_lt_of_le Nat.zero_lt_one hch.le
      rw [concatChannels_height_range_map h0, concatChannels_width_range_map h0]
      exact ⟨rfl, rfl⟩
    · exact ⟨rfl, rfl⟩
  | direction =>
    unfold OUTPUT_PROCESSORS.apply OUTPUT_PROCESSORS.direction
    split_ifs with hch
    · have h0 : 0 < gx.channels := Nat.lt_of_lt_of_le Nat.zero_lt_one hch.le
      rw [concatChannels_height_range_map h0, concatChannels_width_range_map h0]
      exact ⟨hh, hw⟩
    · exact ⟨hh, hw⟩
  | normalized =>
    unfold OUTPUT_PROCESSORS.apply OUTPUT_PROCESSORS.normalized
    split_ifs with hch
    · have h0 : 0 < gx.channels := Nat.lt_of_lt_of_le Nat.zero_lt_one hch.le
      constructor
      · show (concatChannels ((List.range gx.channels).map _)).height =
          gx.height
        rw [concatChannels_height_range_map h0]
        rfl
      · show (concatChannels ((List.range gx.channels).map _)).width =
          gx.width
        rw [concatChannels_width_range_map h0]
        rfl
    · exact ⟨rfl, rfl⟩

/-- The horizontal gradient tensor computed inside `applyToTensor` and
`getGradientComponents` (identical code in both). -/
noncomputable def sobelGradX (s : SobelState) (input : Tensor3 ℝ) : Tensor4 ℝ :=
  depthwiseConv2dSame
    (ensureGrayscaleIfNeeded input s.grayscale).tensor.expandDims0
    (createSobelKernel GradAxis.x s.kernelSize
      (ensureGrayscaleIfNeeded input s.grayscale).tensor.channels)

/-- The vertical gradient tensor computed inside `applyToTensor` and
`getGradientComponents`. -/
noncomputable def sobelGradY (s : SobelState) (input : Tensor3 ℝ) : Tensor4 ℝ :=
  depthwiseConv2dSame
    (ensureGrayscaleIfNeeded input s.grayscale).tensor.expandDims0
    (createSobelKernel GradAxis.y s.kernelSize
      (ensureGrayscaleIfNeeded input s.grayscale).tensor.channels)

theorem applyToTensorWith_some (s : SobelState) (input : Tensor3 ℝ) :
    SobelFilter.applyToTensorWith tfDepthwiseConv s input =
      (if s.normalizeOutputForDisplay then
        (displayNormalize (Tensor4.squeeze0 (OUTPUT_PROCESSORS.apply s.output
          (sobelGradX s input) (sobelGradY s input) s.normalizationRange)),
          false)
      else
        (Tensor4.squeeze0 (OUTPUT_PROCESSORS.apply s.output
          (sobelGradX s input) (sobelGradY s input) s.normalizationRange),
          false)) :=
  rfl

theorem applyToTensor_eq (s : SobelState) (input : Tensor3 ℝ) :
    SobelFilter.applyToTensor s input =
      (if s.normalizeOutputForDisplay then
        displayNormalize (Tensor4.squeeze0 (OUTPUT_PROCESSORS.apply s.output
          (sobelGradX s input) (sobelGradY s input) s.normalizationRange))
      else
        Tensor4.squeeze0 (OUTPUT_PROCESSORS.apply s.output
          (sobelGradX s input) (sobelGradY s input) s.normalizationRange)) := by
  show (SobelFilter.applyToTensorWith tfDepthwiseConv s input).1 = _
  rw [applyToTensorWith_some]
  cases h : s.normalizeOutputForDisplay <;> simp [h]

theorem applyToTensor_spatial (s : SobelState) (input : Tensor3 ℝ) :
    (SobelFilter.applyToTensor s input).height = input.height ∧
    (SobelFilter.applyToTensor s input).width = input.width := by
  have hout := OUTPUT_PROCESSORS.apply_spatial s.output (sobelGradX s input)
    (sobelGradY s input) s.normalizationRange rfl rfl
  rw [applyToTensor_eq]
  cases hnd : s.normalizeOutputForDisplay with
  | true =>
    rw [if_pos rfl]
    exact ⟨hout.1.trans (ensureGrayscaleIfNeeded_height input s.grayscale),
      hout.2.trans (ensureGrayscaleIfNeeded_width input s.grayscale)⟩
  | false =>
    rw [if_neg (by simp)]
    exact ⟨hout.1.trans (ensureGrayscaleIfNeeded_height input s.grayscale),
      hout.2.trans (ensureGrayscaleIfNeeded_width input s.grayscale)⟩

/-- Claim C6: for every supported kernel size, every channel count in
{1, 3, 4} and grayscale on or off, `applyToTensor` returns a tensor whose
height and width equal the input's (the stride-1 `'same'` convolution
preserves spatial size and the added batch axis is squeezed away). -/
theorem applyToTensor_preserves_spatial_size (s : SobelState)
    (input : Tensor3 ℝ)
    (hk : s.kernelSize = 3 ∨ s.kernelSize = 5 ∨ s.kernelSize = 7)
    (hc : input.channels = 1 ∨ input.channels = 3 ∨ input.channels = 4) :
    (SobelFilter.applyToTensor s input).height = input.height ∧
    (SobelFilter.applyToTensor s input).width = input.width :=
  applyToTensor_spatial s input

/-- Witness for `applyToTensor_preserves_spatial_size`: the default
configuration applied to a 2×3 single-channel zero image. -/
theorem applyToTensor_preserves_spatial_size_witness :
    (baseState.kernelSize = 3 ∨ baseState.kernelSize = 5 ∨
      baseState.kernelSize = 7) ∧
    ((zerosT3 2 3 1).channels = 1 ∨ (zerosT3 2 3 1).channels = 3 ∨
      (zerosT3 2 3 1).channels = 4) ∧
    (SobelFilter.applyToTensor baseState (zerosT3 2 3 1)).height = 2 ∧
    (SobelFilter.applyToTensor baseState (zerosT3 2 3 1)).width = 3 :=
  ⟨Or.inl rfl, Or.inl rfl,
    (applyToTensor_preserves_spatial_size baseState (zerosT3 2 3 1)
      (Or.inl rfl) (Or.inl rfl)).1,
    (applyToTensor_preserves_spatial_size baseState (zerosT3 2 3 1)
      (Or.inl rfl) (Or.inl rfl)).2⟩

/-- A 1×2 single-channel image with a vertical edge: pixel values 1, 0. -/
noncomputable def edgeImage : Tensor3 ℝ :=
  ⟨1, 2, 1, fun _ j _ => if j = 0 then 1 else 0⟩

/-- The same vertical-edge image with two channels — a channel count
outside {1, 3, 4}. -/
noncomputable def edgeImage2 : Tensor3 ℝ :=
  ⟨1, 2, 2, fun _ j _ => if j = 0 then 1 else 0⟩

/-- A validly-configured filter (kernel 3, grayscale off, display
normalization off). -/
def edgeState : SobelState :=
  ⟨3, OutputFormat.magnitude, false, none, false⟩

theorem edge_gradX_val :
    (depthwiseConv2dSame edgeImage.expandDims0
      (createSobelKernel GradAxis.x 3 1)).data 0 0 1 0 = -2 := by
  simp only [depthwiseConv2dSame, createSobelKernel]
  simp only [Finset.sum_range_succ, Finset.sum_range_zero]
  norm_num [Tensor4.atPad, Tensor3.expandDims0, edgeImage, matrixEntry,
    axisKernels, KERNELS]

theorem edge_gradY_val :
    (depthwiseConv2dSame edgeImage.expandDims0
      (createSobelKernel GradAxis.y 3 1)).data 0 0 1 0 = 0 := by
  simp only [depthwiseConv2dSame, createSobelKernel]
  simp only [Finset.sum_range_succ, Finset.sum_range_zero]
  norm_num [Tensor4.atPad, Tensor3.expandDims0, edgeImage, matrixEntry,
    axisKernels, KERNELS]

theorem edge2_gradX_val :
    (depthwiseConv2dSame edgeImage2.expandDims0
      (createSobelKernel GradAxis.x 3 2)).data 0 0 1 0 = -2 := by
  simp only [depthwiseConv2dSame, createSobelKernel]
  simp only [Finset.sum_range_succ, Finset.sum_range_zero]
  norm_num [Tensor4.atPad, Tensor3.expandDims0, edgeImage2, matrixEntry,
    axisKernels, KERNELS]

/-- A filter configured for raw `x` output (no display normalization). -/
def c2State : SobelState :=
  ⟨3, OutputFormat.x, false, none, false⟩

theorem applyToTensor_x_edge2_val :
    (SobelFilter.applyToTensor c2State edgeImage2).data 0 1 0 = 2 := by
  rw [applyToTensor_eq]
  rw [if_neg (by simp [show c2State.normalizeOutputForDisplay = false from
    rfl])]
  show |(sobelGradX c2State edgeImage2).data 0 0 1 0| = 2
  have hx : (sobelGradX c2State edgeImage2).data 0 0 1 0 = -2 :=
    edge2_gradX_val
  rw [hx]
  norm_num

/-- Claim C2 (counterexample): on a raster with 2 channels (outside
{1, 3, 4}) the call does not fail: `ensureGrayscaleIfNeeded` returns the
tensor unchanged (`console.warn` only, recorded by the `warned` flag), and
`applyToTensor` returns a fully processed result computed from the
unchanged 2-channel input (value 2 = |−2| at the edge pixel, channel
count still 2) — the input is processed as-is rather than rejected. -/
theorem unsupported_channels_processed_counterexample :
    edgeImage2.channels = 2 ∧
    ensureGrayscaleIfNeeded edgeImage2 false =
      ⟨edgeImage2, false, true⟩ ∧
    (SobelFilter.applyToTensor c2State edgeImage2).data 0 1 0 = 2 ∧
    (SobelFilter.applyToTensor c2State edgeImage2).channels = 2 :=
  ⟨rfl, rfl, applyToTensor_x_edge2_val, rfl⟩

/-- Claim C2 (amended): a channel count outside {1, 3, 4} is not rejected
anywhere: the channel adapter passes the raster through unchanged, only
logging a warning, and the gradient computation then runs on the
unmodified raster (with the kernels tiled to its actual channel count). -/
theorem unsupported_channels_passthrough (input : Tensor3 ℝ) (g : Bool)
    (h1 : input.channels ≠ 1) (h3 : input.channels ≠ 3)
    (h4 : input.channels ≠ 4) :
    (ensureGrayscaleIfNeeded input g).tensor = input ∧
    (ensureGrayscaleIfNeeded input g).warned = true ∧
    ∀ s : SobelState, s.grayscale = g →
      sobelGradX s input = depthwiseConv2dSame input.expandDims0
        (createSobelKernel GradAxis.x s.kernelSize input.channels) ∧
      sobelGradY s input = depthwiseConv2dSame input.expandDims0
        (createSobelKernel GradAxis.y s.kernelSize input.channels) := by
  have hten : (ensureGrayscaleIfNeeded input g).tensor = input ∧
      (ensureGrayscaleIfNeeded input g).warned = true := by
    cases g <;> simp [ensureGrayscaleIfNeeded, h1, h3, h4]
  refine ⟨hten.1, hten.2, ?_⟩
  intro s hs
  unfold sobelGradX sobelGradY
  rw [hs, hten.1]
  exact ⟨rfl, rfl⟩

/-- Witness for `unsupported_channels_passthrough` at the concrete
2-channel edge image. -/
theorem unsupported_channels_passthrough_witness :
    (edgeImage2.channels ≠ 1 ∧ edgeImage2.channels ≠ 3 ∧
      edgeImage2.channels ≠ 4) ∧
    (ensureGrayscaleIfNeeded edgeImage2 false).tensor = edgeImage2 ∧
    (ensureGrayscaleIfNeeded edgeImage2 false).warned = true ∧
    sobelGradX c2State edgeImage2 = depthwiseConv2dSame
      edgeImage2.expandDims0
      (createSobelKernel GradAxis.x c2State.kernelSize
        edgeImage2.channels) :=
  ⟨⟨by decide, by decide, by decide⟩,
    (unsupported_channels_passthrough edgeImage2 false (by decide)
      (by decide) (by decide)).1,
    (unsupported_channels_passthrough edgeImage2 false (by decide)
      (by decide) (by decide)).2.1,
    ((unsupported_channels_passthrough edgeImage2 false (by decide)
      (by decide) (by decide)).2.2 c2State rfl).1⟩

theorem getGradientComponents_eq (s : SobelState) (input : Tensor3 ℝ) :
    SobelFilter.getGradientComponents s input =
      (Tensor4.squeeze0 (Tensor4.sqrtAll (Tensor4.add
        (Tensor4.square (sobelGradX s input))
        (Tensor4.square (sobelGradY s input)))),
        Tensor4.squeeze0 (Tensor4.atan2All (sobelGradY s input)
          (sobelGradX s input))) :=
  rfl

theorem getGradientComponents_edge_mag :
    (SobelFilter.getGradientComponents edgeState edgeImage).1.data 0 1 0 =
      2 := by
  show Real.sqrt ((sobelGradX edgeState edgeImage).data 0 0 1 0 ^ 2 +
    (sobelGradY edgeState edgeImage).data 0 0 1 0 ^ 2) = 2
  have hx : (sobelGradX edgeState edgeImage).data 0 0 1 0 = -2 :=
    edge_gradX_val
  have hy : (sobelGradY edgeState edgeImage).data 0 0 1 0 = 0 :=
    edge_gradY_val
  rw [hx, hy]
  norm_num
  rw [show (4 : ℝ) = 2 ^ 2 by norm_num, Real.sqrt_sq (by norm_num)]

theorem applyToTensor_x_edge_val :
    (SobelFilter.applyToTensor { edgeState with output := OutputFormat.x }
      edgeImage).data 0 1 0 = 2 := by
  rw [applyToTensor_eq]
  rw [if_neg (by simp [edgeState])]
  show |(sobelGradX { edgeState with output := OutputFormat.x }
    edgeImage).data 0 0 1 0| = 2
  have hx : (sobelGradX { edgeState with output := OutputFormat.x }
      edgeImage).data 0 0 1 0 = -2 := edge_gradX_val
  rw [hx]
  norm_num

theorem applyToTensor_y_edge_val :
    (SobelFilter.applyToTensor { edgeState with output := OutputFormat.y }
      edgeImage).data 0 1 0 = 2 := by
  rw [applyToTensor_eq]
  rw [if_neg (by simp [edgeState])]
  show |(sobelGradX { edgeState with output := OutputFormat.y }
    edgeImage).data 0 0 1 0| = 2
  have hx : (sobelGradX { edgeState with output := OutputFormat.y }
      edgeImage).data 0 0 1 0 = -2 := edge_gradX_val
  rw [hx]
  norm_num

/-- Claim C8 (code-bug demonstration): on the vertical-edge image the
one-pass magnitude is `sqrt(Gx² + Gy²) = sqrt(4 + 0) = 2`, and the
claimed identity `magnitude = sqrt(x_strategy² + y_strategy²)` fails:
because the registered `y` processor binds the *first* positional
argument (`gradX`), the `y` output format also evaluates to `|Gx| = 2`
(instead of `|Gy| = 0`), so `sqrt(x² + y²) = sqrt 8 ≠ 2`.  Had the `y`
strategy returned `abs(gradY)` as its documentation states, the identity
would hold pointwise, since `sqrt(|a|² + |b|²) = sqrt(a² + b²)` (final
conjunct). -/
theorem gradientComponents_strategy_divergence :
    (SobelFilter.getGradientComponents edgeState edgeImage).1.data 0 1 0 =
      2 ∧
    (SobelFilter.applyToTensor { edgeState with output := OutputFormat.x }
      edgeImage).data 0 1 0 = 2 ∧
    (SobelFilter.applyToTensor { edgeState with output := OutputFormat.y }
      edgeImage).data 0 1 0 = 2 ∧
    Real.sqrt
        ((SobelFilter.applyToTensor
          { edgeState with output := OutputFormat.x } edgeImage).data 0 1 0
            ^ 2 +
          (SobelFilter.applyToTensor
            { edgeState with output := OutputFormat.y } edgeImage).data 0 1
              0 ^ 2) ≠
      (SobelFilter.getGradientComponents edgeState edgeImage).1.data 0 1
        0 ∧
    (∀ gx gy : Tensor4 ℝ, ∀ b i j k,
      (Tensor4.sqrtAll (Tensor4.add (Tensor4.square (Tensor4.absAll gx))
        (Tensor4.square (Tensor4.absAll gy)))).data b i j k =
      (Tensor4.sqrtAll (Tensor4.add (Tensor4.square gx)
        (Tensor4.square gy))).data b i j k) := by
  refine ⟨getGradientComponents_edge_mag, applyToTensor_x_edge_val,
    applyToTensor_y_edge_val, ?_, ?_⟩
  · rw [applyToTensor_x_edge_val, applyToTensor_y_edge_val,
      getGradientComponents_edge_mag]
    intro h
    have h8 := Real.sq_sqrt (by norm_num : (0 : ℝ) ≤ 2 ^ 2 + 2 ^ 2)
    rw [h] at h8
    norm_num at h8
  · intro gx gy b i j k
    show Real.sqrt (|gx.data b i j k| ^ 2 + |gy.data b i j k| ^ 2) = _
    rw [sq_abs, sq_abs]
    rfl
